import Mathlib

/-!
Shallow embedding of the godmorgon API gateway (Python/FastAPI) in Lean 4,
covering the fan-out/aggregation orchestrator (`application.py`), the
nearest-station selection (`utils/utils.py`, `src/bikes/bikes.py`) and the
geocoder (`src/weather/weather.py`).

Network calls are modelled by passing the outcome of each remote call as an
explicit parameter; Python exceptions become `Except` errors; Python floats
become `ℚ` (the algorithms only compare, add, multiply and round values, which
agrees with IEEE semantics on all inputs considered here).
-/

/-- Outcome of one HTTP call attempted by `utils.send_request`
(`src/utils/utils.py`): either a response was received (any status code, with
its body), or httpx raised a timeout, or httpx raised a transport-level error.
The carried strings are the response body, resp. `str(e)` of the exception. -/
inductive Outcome where
  | success (statusCode : Nat) (body : String)
  | timeout (detail : String)
  | transportError (detail : String)
deriving DecidableEq, Repr

/-- The Python exceptions the embedded code can raise: the builtin
`AssertionError` (from `assert` statements, carrying the message, `""` for a
bare `assert`), the builtin `ValueError` and `IndexError` raised by NumPy
inside `max_n`/`get_nearest_stations`, the two httpx network errors, and the
two geocode exceptions defined in `src/utils/errors.py`. `errors.py` defines
no other concrete exception class (in particular no `IntegrityError` and no
`UpstreamError`). -/
inductive PyExc where
  | assertionError (msg : String)
  | valueError (detail : String)
  | indexError (detail : String)
  | httpxTimeout (detail : String)
  | httpxTransportError (detail : String)
  | geocodeInvalidResponse (statusCode : Nat)
  | geocodeConfidenceError (confidenceScore : ℚ) (threshold : ℚ)
deriving DecidableEq, Repr

/-- Python `str(e)` for the exceptions above: `AssertionError` prints its
message, the httpx errors print their detail, and the custom exceptions of
`src/utils/errors.py` print the `message` they were constructed with
(`CustomException.__init__` passes `message` to `Exception.__init__`): in
`src/weather/weather.py` these are the two fixed strings below. -/
def pyStr : PyExc → String
  | .assertionError msg => msg
  | .valueError detail => detail
  | .indexError detail => detail
  | .httpxTimeout detail => detail
  | .httpxTransportError detail => detail
  | .geocodeInvalidResponse _ => "Invalid open weather data API is invalid, check that the address is valid"
  | .geocodeConfidenceError _ _ => "Invalid address"

/-- Subclasses of `CustomException` (`src/utils/errors.py`): exactly the
geocode exceptions. `AssertionError` and the httpx errors are builtins, not
part of the project's custom exception hierarchy. -/
def isCustomException : PyExc → Bool
  | .geocodeInvalidResponse _ => true
  | .geocodeConfidenceError _ _ => true
  | _ => false

/-- An httpx response as seen by the callers: status code and body. -/
structure Response where
  status_code : Nat
  body : String
deriving DecidableEq, Repr

/-- `utils.send_request` (`src/utils/utils.py`): one `httpx.AsyncClient`
request. A received response is returned whatever its status code; a timeout
or transport failure raises the corresponding httpx exception. The network's
behaviour is the explicit `Outcome` argument. -/
def send_request (o : Outcome) : Except PyExc Response :=
  match o with
  | .success c b => .ok ⟨c, b⟩
  | .timeout d => .error (.httpxTimeout d)
  | .transportError d => .error (.httpxTransportError d)

/-- `HealthStatus.STATUS_CODES` from `src/configuration.py`: the fixed
status-code → label table, in source order. -/
def STATUS_CODES : List (Nat × String) :=
  [(200, "healthy"), (400, "bad request"), (408, "timeout"),
   (500, "internal error"), (520, "down")]

/-- Python `STATUS_CODES.get(code)`: `some label` when the code is a key of
the table, `None` otherwise. -/
def statusCodesGet (code : Nat) : Option String :=
  (STATUS_CODES.find? (fun p => p.1 == code)).map Prod.snd

/-- First component of a `microservices_health` entry in
`application.health_endpoint`: Python stores the string `str(status_code)` on
a received response and the literal `'Unhealthy'` on a caught exception, and
later compares it with `'200'`. Since `str` is injective on the naturals and
`'Unhealthy'` is no numeral, that string comparison coincides with equality in
this two-constructor type, which keeps the status code accessible. -/
inductive HealthKey where
  | code (c : Nat)
  | unhealthy
deriving DecidableEq, Repr

/-- Body of the `try`/`except` around one per-service health call in
`application.health_endpoint` (the `try` spans the `send_request` await, the
table lookup and the tuple construction; `except (Exception,)` catches every
exception and yields `('Unhealthy', str(e))`). -/
def healthValue (o : Outcome) : HealthKey × Option String :=
  match send_request o with
  | .ok r => (.code r.status_code, statusCodesGet r.status_code)
  | .error e => (.unhealthy, some (pyStr e))

/-- The value returned by the gateway `/health` endpoint: `gateway_status`
and the `microservices_health` mapping in insertion order (the Python dict is
keyed by service name; the configured names are distinct). -/
structure AggregateHealth where
  gateway_status : Nat
  microservices_health : List (String × (HealthKey × Option String))
deriving DecidableEq, Repr

/-- One iteration of the `for _, service_config in MICROSERVICES_CONFIG`
loop of `application.health_endpoint`: compute the service's health value,
append it to the mapping, and set `gateway_status` to 207 when the value's
first component differs from `'200'`. -/
def healthStep (acc : Nat × List (String × (HealthKey × Option String)))
    (svc : String × Outcome) : Nat × List (String × (HealthKey × Option String)) :=
  let value := healthValue svc.2
  (if value.1 ≠ HealthKey.code 200 then 207 else acc.1, acc.2 ++ [(svc.1, value)])

/-- `application.health_endpoint`: starts from `gateway_status = 200` and an
empty mapping, runs the per-service loop, and builds the response. The only
statement outside the loop's `try`/`except` that could raise is the
construction of `GatewayHealthResponse` from the completed dict (a
programming error, impossible here since every field is present), so the
result is always `.ok`. The `services` argument lists the configured
microservices with the outcome of each health call. -/
def health_endpoint (services : List (String × Outcome)) : Except PyExc AggregateHealth :=
  let r := services.foldl healthStep (200, [])
  .ok ⟨r.1, r.2⟩

/-- Does an outcome represent a received HTTP response with status 200? -/
def isSuccess200 : Outcome → Bool
  | .success c _ => c == 200
  | _ => false

theorem healthStep_foldl_snd (services : List (String × Outcome))
    (s : Nat) (acc : List (String × (HealthKey × Option String))) :
    (services.foldl healthStep (s, acc)).2
      = acc ++ services.map (fun p => (p.1, healthValue p.2)) := by
  induction services generalizing s acc with
  | nil => simp
  | cons hd tl ih =>
    simp only [List.foldl_cons, List.map_cons, healthStep]
    rw [ih]
    simp

theorem healthStep_foldl_fst (services : List (String × Outcome)) (s : Nat) (acc) :
    (services.foldl healthStep (s, acc)).1
      = if services.any (fun p => (healthValue p.2).1 ≠ HealthKey.code 200) then 207
        else s := by
  induction services generalizing s acc with
  | nil => simp
  | cons hd tl ih =>
    simp only [List.foldl_cons, List.any_cons, healthStep]
    rw [ih]
    by_cases h : (healthValue hd.2).1 = HealthKey.code 200
    · simp only [h, ne_eq, not_true_eq_false, decide_False, Bool.false_or]
      simp
    · simp [h]

theorem healthValue_fst_code200_iff (o : Outcome) :
    (healthValue o).1 = HealthKey.code 200 ↔ isSuccess200 o = true := by
  cases o with
  | success c b => simp [healthValue, send_request, isSuccess200]
  | timeout d => simp [healthValue, send_request, isSuccess200]
  | transportError d => simp [healthValue, send_request, isSuccess200]

theorem healthValue_timeout (d : String) :
    healthValue (Outcome.timeout d) = (HealthKey.unhealthy, some d) := rfl

theorem healthValue_transport (d : String) :
    healthValue (Outcome.transportError d) = (HealthKey.unhealthy, some d) := rfl

/-- C1: the health rollup never raises because an individual backend call
failed: for every configured service list and every combination of per-backend
outcomes, `health_endpoint` returns (`.ok`) an `AggregateHealth` whose
`microservices_health` has exactly one entry per configured backend (so every
failing backend appears there), with timeouts and transport errors recorded as
`('Unhealthy', detail)` entries rather than propagated as exceptions. -/
theorem health_endpoint_never_raises (services : List (String × Outcome)) :
    ∃ h : AggregateHealth, health_endpoint services = Except.ok h ∧
      h.microservices_health = services.map (fun p => (p.1, healthValue p.2)) ∧
      (∀ d, healthValue (Outcome.timeout d) = (HealthKey.unhealthy, some d)) ∧
      (∀ d, healthValue (Outcome.transportError d) = (HealthKey.unhealthy, some d)) := by
  refine ⟨_, rfl, ?_, fun d => rfl, fun d => rfl⟩
  exact healthStep_foldl_snd services 200 []

theorem any_unhealthy_iff (services : List (String × Outcome)) :
    (services.any fun p => decide ((healthValue p.2).1 ≠ HealthKey.code 200)) = true
      ↔ ∃ p ∈ services, isSuccess200 p.2 = false := by
  rw [List.any_eq_true]
  constructor
  · rintro ⟨p, hp, hd⟩
    refine ⟨p, hp, ?_⟩
    have hne := of_decide_eq_true hd
    cases hx : isSuccess200 p.2
    · rfl
    · exact absurd ((healthValue_fst_code200_iff p.2).2 hx) hne
  · rintro ⟨p, hp, hd⟩
    refine ⟨p, hp, decide_eq_true ?_⟩
    intro hx
    have := (healthValue_fst_code200_iff p.2).1 hx
    rw [hd] at this
    exact Bool.false_ne_true this

/-- C2: the gateway health status is 207 iff at least one backend's outcome is
not a received response with HTTP status 200, is 200 otherwise, and is always
one of 200 and 207 (in particular never a 5xx caused by a downstream
failure). -/
theorem gateway_status_multi_status_iff (services : List (String × Outcome)) :
    ∃ st mp, health_endpoint services = Except.ok ⟨st, mp⟩ ∧
      (st = 207 ↔ ∃ p ∈ services, isSuccess200 p.2 = false) ∧
      (st = 200 ↔ ∀ p ∈ services, isSuccess200 p.2 = true) ∧
      (st = 200 ∨ st = 207) := by
  refine ⟨if (services.any fun p => decide ((healthValue p.2).1 ≠ HealthKey.code 200)) = true
            then 207 else 200,
          services.map (fun p => (p.1, healthValue p.2)), ?_, ?_, ?_, ?_⟩
  · show Except.ok (⟨(services.foldl healthStep (200, [])).1,
        (services.foldl healthStep (200, [])).2⟩ : AggregateHealth) = _
    rw [healthStep_foldl_fst services 200 [], healthStep_foldl_snd services 200 []]
    simp
  · by_cases hb :
      (services.any fun p => decide ((healthValue p.2).1 ≠ HealthKey.code 200)) = true
    · rw [if_pos hb]
      exact iff_of_true rfl ((any_unhealthy_iff services).1 hb)
    · rw [if_neg hb]
      refine iff_of_false (by norm_num) ?_
      exact fun hex => hb ((any_unhealthy_iff services).2 hex)
  · by_cases hb :
      (services.any fun p => decide ((healthValue p.2).1 ≠ HealthKey.code 200)) = true
    · rw [if_pos hb]
      refine iff_of_false (by norm_num) ?_
      obtain ⟨p, hp, hf⟩ := (any_unhealthy_iff services).1 hb
      intro hall
      rw [hall p hp] at hf
      exact Bool.noConfusion hf
    · rw [if_neg hb]
      refine iff_of_true rfl ?_
      intro p hp
      cases hx : isSuccess200 p.2
      · exact absurd ((any_unhealthy_iff services).2 ⟨p, hp, hx⟩) hb
      · rfl
  · by_cases hb :
      (services.any fun p => decide ((healthValue p.2).1 ≠ HealthKey.code 200)) = true
    · rw [if_pos hb]
      exact Or.inr rfl
    · rw [if_neg hb]
      exact Or.inl rfl

/-- C8: the health rollup maps a received response through the fixed table of
`HealthStatus.STATUS_CODES` (200→"healthy", 400→"bad request", 408→"timeout",
500→"internal error", 520→"down"); for a status code outside the table the raw
code passes through with no label (Python `dict.get` yields `None`); a timeout
or transport error maps to `'Unhealthy'` with the exception's detail. -/
theorem health_status_label_table :
    (∀ b, healthValue (Outcome.success 200 b) = (HealthKey.code 200, some "healthy")) ∧
    (∀ b, healthValue (Outcome.success 400 b) = (HealthKey.code 400, some "bad request")) ∧
    (∀ b, healthValue (Outcome.success 408 b) = (HealthKey.code 408, some "timeout")) ∧
    (∀ b, healthValue (Outcome.success 500 b) = (HealthKey.code 500, some "internal error")) ∧
    (∀ b, healthValue (Outcome.success 520 b) = (HealthKey.code 520, some "down")) ∧
    (∀ c b, c ≠ 200 → c ≠ 400 → c ≠ 408 → c ≠ 500 → c ≠ 520 →
      healthValue (Outcome.success c b) = (HealthKey.code c, none)) ∧
    (∀ d, healthValue (Outcome.timeout d) = (HealthKey.unhealthy, some d)) ∧
    (∀ d, healthValue (Outcome.transportError d) = (HealthKey.unhealthy, some d)) := by
  refine ⟨fun b => rfl, fun b => rfl, fun b => rfl, fun b => rfl, fun b => rfl,
    ?_, fun d => rfl, fun d => rfl⟩
  intro c b h1 h2 h3 h4 h5
  have hfind : STATUS_CODES.find? (fun p => p.1 == c) = none := by
    rw [List.find?_eq_none]
    intro x hx
    simp only [STATUS_CODES, List.mem_cons, List.not_mem_nil, or_false] at hx
    rcases hx with h | h | h | h | h <;> subst h <;> simp <;> omega
  simp only [healthValue, send_request, statusCodesGet, hfind, Option.map_none']

/-- Witness for the pass-through branch of `health_status_label_table` at the
unmapped status code 404. -/
theorem health_status_label_table_witness :
    healthValue (Outcome.success 404 "not found") = (HealthKey.code 404, none) :=
  health_status_label_table.2.2.2.2.2.1 404 "not found"
    (by decide) (by decide) (by decide) (by decide) (by decide)

/-- The `try` block around one sub-request in `application.dashboard_data`:
await `send_request`, then `assert response.status_code == 200, 'Request
failed'`; the `except (Exception,)` clause only logs and re-raises the very
same exception, so the underlying error propagates unchanged. -/
def dashboardSubRequest (o : Outcome) : Except PyExc Response :=
  match send_request o with
  | .ok r =>
      if r.status_code = 200 then .ok r
      else .error (.assertionError "Request failed")
  | .error e => .error e

/-- The exception with which one dashboard sub-request fails, if it fails:
the httpx exception itself for a timeout or transport failure,
`AssertionError('Request failed')` for a received non-200 response, and `none`
for a received 200 response (the sub-request succeeds). -/
def subRequestError : Outcome → Option PyExc
  | .success c _ => if c = 200 then none else some (.assertionError "Request failed")
  | .timeout d => some (.httpxTimeout d)
  | .transportError d => some (.httpxTransportError d)

/-- The value returned by `/get_dashboard_data`: the timestamp captured at the
start of the call and the two sub-response bodies. -/
structure DashboardPayload where
  timestamp : String
  bikes_info : String
  weather_info : String
deriving DecidableEq, Repr

/-- `application.dashboard_data`: capture the timestamp, perform the bikes
sub-request, then the weather sub-request (each asserting HTTP 200 and
re-raising its own failure), and on success merge both bodies with the
timestamp. -/
def dashboard_data (timestamp : String) (bikes weather : Outcome) :
    Except PyExc DashboardPayload := do
  let bike_response ← dashboardSubRequest bikes
  let weather_response ← dashboardSubRequest weather
  pure ⟨timestamp, bike_response.body, weather_response.body⟩

theorem dashboardSubRequest_error (o : Outcome) (e : PyExc)
    (h : subRequestError o = some e) : dashboardSubRequest o = .error e := by
  cases o with
  | success c b =>
    by_cases hc : c = 200
    · simp [subRequestError, hc] at h
    · simp only [subRequestError, if_neg hc, Option.some.injEq] at h
      simp [dashboardSubRequest, send_request, if_neg hc, h]
  | timeout d =>
    simp only [subRequestError, Option.some.injEq] at h
    simp [dashboardSubRequest, send_request, h]
  | transportError d =>
    simp only [subRequestError, Option.some.injEq] at h
    simp [dashboardSubRequest, send_request, h]

theorem dashboardSubRequest_ok (o : Outcome) (h : subRequestError o = none) :
    ∃ b, o = Outcome.success 200 b ∧ dashboardSubRequest o = .ok ⟨200, b⟩ := by
  cases o with
  | success c b =>
    by_cases hc : c = 200
    · subst hc
      exact ⟨b, rfl, rfl⟩
    · simp [subRequestError, if_neg hc] at h
  | timeout d => simp [subRequestError] at h
  | transportError d => simp [subRequestError] at h

/-- C4 (amended): any sub-request failure is fatal to the whole composite
call — `dashboard_data` propagates the failing sub-request's own exception
(httpx timeout/transport error, or `AssertionError('Request failed')` for a
non-200 response) and returns a payload iff both sub-requests received HTTP
200; in particular no partial (bikes-only or weather-only) payload is ever
returned. The raised error is the bare underlying exception: the code defines
no `UpstreamError`, so which sub-request failed is recorded only in a log. -/
theorem dashboard_failure_is_fatal (ts : String) (bikes weather : Outcome) :
    (∀ e, subRequestError bikes = some e →
        dashboard_data ts bikes weather = Except.error e) ∧
    (∀ e, subRequestError bikes = none → subRequestError weather = some e →
        dashboard_data ts bikes weather = Except.error e) ∧
    ((∃ p, dashboard_data ts bikes weather = Except.ok p) ↔
        subRequestError bikes = none ∧ subRequestError weather = none) := by
  refine ⟨?_, ?_, ?_⟩
  · intro e he
    simp only [dashboard_data, dashboardSubRequest_error bikes e he]
    rfl
  · intro e hb hw
    obtain ⟨b, _, hok⟩ := dashboardSubRequest_ok bikes hb
    simp only [dashboard_data, hok, dashboardSubRequest_error weather e hw]
    rfl
  · constructor
    · rintro ⟨p, hp⟩
      rcases hsb : subRequestError bikes with _ | e
      · rcases hsw : subRequestError weather with _ | e
        · exact ⟨rfl, rfl⟩
        · obtain ⟨b, _, hok⟩ := dashboardSubRequest_ok bikes hsb
          rw [show dashboard_data ts bikes weather = Except.error e from by
            simp only [dashboard_data, hok, dashboardSubRequest_error weather e hsw]
            rfl] at hp
          cases hp
      · rw [show dashboard_data ts bikes weather = Except.error e from by
          simp only [dashboard_data, dashboardSubRequest_error bikes e hsb]
          rfl] at hp
        cases hp
    · rintro ⟨hb, hw⟩
      obtain ⟨b, _, hokb⟩ := dashboardSubRequest_ok bikes hb
      obtain ⟨w, _, hokw⟩ := dashboardSubRequest_ok weather hw
      refine ⟨⟨ts, b, w⟩, ?_⟩
      simp only [dashboard_data, hokb, hokw]
      rfl

/-- Witness for `dashboard_failure_is_fatal`: bikes succeeds with
HTTP 200 while weather times out; the composite call fails with the weather
call's own httpx timeout and yields no payload. -/
theorem dashboard_failure_is_fatal_witness :
    dashboard_data "2024-01-01" (Outcome.success 200 "bikes-body")
        (Outcome.timeout "Request timed out")
      = Except.error (PyExc.httpxTimeout "Request timed out") :=
  (dashboard_failure_is_fatal "2024-01-01" (Outcome.success 200 "bikes-body")
      (Outcome.timeout "Request timed out")).2.1
    (PyExc.httpxTimeout "Request timed out") rfl rfl

/-- C4 counterexample: a weather timeout (with bikes succeeding) makes
`dashboard_data` fail with the bare httpx timeout exception — the identical
error produced when instead the bikes sub-request times out — so the raised
error does not identify which sub-request failed, and no
`UpstreamError("weather", ...)` exists (`src/utils/errors.py` defines no
`UpstreamError` class; the failing sub-request is named only in a log
message). -/
theorem dashboard_error_identifies_no_subrequest :
    dashboard_data "t" (Outcome.success 200 "bikes") (Outcome.timeout "timed out")
      = Except.error (PyExc.httpxTimeout "timed out") ∧
    dashboard_data "t" (Outcome.timeout "timed out") (Outcome.success 200 "weather")
      = Except.error (PyExc.httpxTimeout "timed out") ∧
    isCustomException (PyExc.httpxTimeout "timed out") = false :=
  ⟨rfl, rfl, rfl⟩

/-- One iteration of the health loop together with its wall-clock cost: the
loop body `await`s its `send_request` call, which completes only after that
call's duration (third component: time to respond, or the configured per-call
timeout when the call times out), and the next iteration starts only then —
the awaits are issued one after the other, with no gather/fan-out primitive in
`application.health_endpoint`. -/
def timedHealthStep (acc : (Nat × List (String × (HealthKey × Option String))) × ℚ)
    (svc : String × Outcome × ℚ) :
    (Nat × List (String × (HealthKey × Option String))) × ℚ :=
  (healthStep acc.1 (svc.1, svc.2.1), acc.2 + svc.2.2)

/-- Wall-clock model of `application.health_endpoint`: the aggregate response
together with the elapsed time, starting from 0, accumulated over the
sequentially awaited per-service calls. -/
def health_endpoint_timed (services : List (String × Outcome × ℚ)) :
    Except PyExc AggregateHealth × ℚ :=
  let r := services.foldl timedHealthStep ((200, []), 0)
  (.ok ⟨r.1.1, r.1.2⟩, r.2)

/-- Wall-clock model of `application.dashboard_data`: the bikes sub-request is
awaited first, the weather sub-request is awaited only after it finished
(when the bikes sub-request fails, its exception propagates before the weather
call is even issued). Each outcome is paired with that call's duration. -/
def dashboard_data_timed (timestamp : String) (bikes weather : Outcome × ℚ) :
    Except PyExc DashboardPayload × ℚ :=
  match dashboardSubRequest bikes.1 with
  | .error e => (.error e, bikes.2)
  | .ok bike_response =>
      match dashboardSubRequest weather.1 with
      | .error e => (.error e, bikes.2 + weather.2)
      | .ok weather_response =>
          (.ok ⟨timestamp, bike_response.body, weather_response.body⟩,
           bikes.2 + weather.2)

theorem timedHealthStep_foldl (services : List (String × Outcome × ℚ)) (a : _) (t : ℚ) :
    services.foldl timedHealthStep (a, t)
      = ((services.map (fun p => (p.1, p.2.1))).foldl healthStep a,
         t + (services.map (fun p => p.2.2)).sum) := by
  induction services generalizing a t with
  | nil => simp
  | cons hd tl ih =>
    simp only [List.foldl_cons, List.map_cons, timedHealthStep, List.sum_cons]
    rw [ih]
    ring_nf

/-- C9 (amended): within one orchestrator invocation the backend calls are
awaited sequentially, not concurrently: the wall-clock cost of the health
rollup is the **sum** of the individual call durations (so it is bounded only
by the sum of the per-call timeouts, not by their maximum), the aggregate
value being the same as in the untimed model; the dashboard fetch likewise
accumulates the durations of the sub-requests it reaches. -/
theorem backend_calls_sequential_elapsed_sum (services : List (String × Outcome × ℚ))
    (ts : String) (bikes weather : Outcome × ℚ) :
    (health_endpoint_timed services).2 = (services.map (fun p => p.2.2)).sum ∧
    (health_endpoint_timed services).1
      = health_endpoint (services.map (fun p => (p.1, p.2.1))) ∧
    ((dashboard_data_timed ts bikes weather).1 = dashboard_data ts bikes.1 weather.1) ∧
    (subRequestError bikes.1 = none →
      (dashboard_data_timed ts bikes weather).2 = bikes.2 + weather.2) := by
  refine ⟨?_, ?_, ?_, ?_⟩
  · simp [health_endpoint_timed, timedHealthStep_foldl]
  · simp only [health_endpoint_timed, health_endpoint, timedHealthStep_foldl]
  · simp only [dashboard_data_timed, dashboard_data]
    rcases hb : dashboardSubRequest bikes.1 with e | rb
    · rfl
    · rcases hw : dashboardSubRequest weather.1 with e | rw'
      · rfl
      · rfl
  · intro hb
    obtain ⟨b, _, hok⟩ := dashboardSubRequest_ok bikes.1 hb
    simp only [dashboard_data_timed, hok]
    rcases hw : dashboardSubRequest weather.1 with e | rw'
    · rfl
    · rfl

/-- Witness for `backend_calls_sequential_elapsed_sum` at a concrete
configuration: both configured services (timeout 5 seconds each, the value of
`configuration.TIMEOUT`) time out; the rollup takes 5 + 5 = 10 seconds. -/
theorem backend_calls_sequential_elapsed_sum_witness :
    (health_endpoint_timed
        [("weather-microservice", Outcome.timeout "timed out", 5),
         ("bikes-microservice", Outcome.timeout "timed out", 5)]).2 = 10 := by
  rw [(backend_calls_sequential_elapsed_sum
      [("weather-microservice", Outcome.timeout "timed out", 5),
       ("bikes-microservice", Outcome.timeout "timed out", 5)] "t"
      (Outcome.success 200 "b", 1) (Outcome.success 200 "w", 1)).1]
  norm_num

/-- C9 counterexample: with the two configured microservices and the
configured per-call timeout of 5 seconds, both health calls timing out cost
10 seconds of wall clock — strictly more than the slowest single call (5
seconds, which is also the maximum of the per-call timeouts) — refuting the
claim that the wall-clock cost of the rollup is bounded by the slowest single
backend call; likewise the dashboard fetch costs the sum of its two
sub-request durations. -/
theorem health_rollup_not_concurrent :
    (health_endpoint_timed
        [("weather-microservice", Outcome.timeout "timed out", 5),
         ("bikes-microservice", Outcome.timeout "timed out", 5)]).2 = 10 ∧
    ¬ ((10 : ℚ) ≤ 5) ∧
    (dashboard_data_timed "t" (Outcome.success 200 "b", 5)
        (Outcome.timeout "timed out", 5)).2 = 10 := by
  refine ⟨?_, by norm_num, ?_⟩
  · simp [health_endpoint_timed, timedHealthStep, healthStep]
    norm_num
  · simp [dashboard_data_timed, dashboardSubRequest, send_request]
    norm_num

/-- Square of `utils.distance` (the Euclidean L2 norm of `a - b` for two
2-vectors). The source returns the square root of this quantity; every
consumer of `distance` in the repository (`get_nearest_stations` via `max_n`)
only compares distances, and the square root is strictly monotone on
nonnegative reals, so carrying the square yields identical comparisons and
identical selected indices while staying in ℚ. -/
def distanceSq (a b : ℚ × ℚ) : ℚ := (a.1 - b.1) ^ 2 + (a.2 - b.2) ^ 2

/-- Index order used to model the NumPy `argpartition`/`argsort` pipeline of
`utils.max_n`: index `i` precedes index `j` when its value is smaller, equal
values being ordered by index. NumPy leaves the relative order of equal
values unspecified; on arrays as small as this repository sorts, NumPy's
default quicksort falls back to insertion sort, which keeps equal values in
input order, and this determinization is also the one most favourable to the
spec's stability claim. Out-of-range indices never occur (the sorted lists
are permutations of `range`); `getD` merely totalizes the lookup. -/
def argLe (arr : List ℚ) (i j : Nat) : Prop :=
  arr.getD i 0 < arr.getD j 0 ∨ (arr.getD i 0 = arr.getD j 0 ∧ i ≤ j)

instance (arr : List ℚ) : DecidableRel (argLe arr) := fun i j =>
  inferInstanceAs (Decidable (arr.getD i 0 < arr.getD j 0 ∨ (arr.getD i 0 = arr.getD j 0 ∧ i ≤ j)))

instance (arr : List ℚ) : IsTotal ℕ (argLe arr) := ⟨fun i j => by
  unfold argLe
  rcases lt_trichotomy (arr.getD i 0) (arr.getD j 0) with h | h | h
  · exact Or.inl (Or.inl h)
  · rcases Nat.le_total i j with hij | hij
    · exact Or.inl (Or.inr ⟨h, hij⟩)
    · exact Or.inr (Or.inr ⟨h.symm, hij⟩)
  · exact Or.inr (Or.inl h)⟩

instance (arr : List ℚ) : IsTrans ℕ (argLe arr) := ⟨fun a b c hab hbc => by
  unfold argLe at hab hbc ⊢
  rcases hab with h1 | ⟨h1, h1'⟩ <;> rcases hbc with h2 | ⟨h2, h2'⟩
  · exact Or.inl (h1.trans h2)
  · exact Or.inl (h2 ▸ h1)
  · exact Or.inl (h1 ▸ h2)
  · exact Or.inr ⟨h1.trans h2, h1'.trans h2'⟩⟩

/-- Model of ascending `np.argsort` over a whole array: the indices
`0 .. len-1` sorted by value (ties by index, see `argLe`). -/
def argsort (arr : List ℚ) : List Nat :=
  (List.range arr.length).insertionSort (argLe arr)

/-- The index array `max_n` returns, dtype included: the `n <= 0` branch of
the source returns `np.array([])`, whose dtype is **float64**, while the main
branch returns an integer-dtype array derived from `np.argpartition`. The
dtype matters to the caller: NumPy fancy indexing `np.asarray(s)[indices]`
accepts only integer (or boolean) dtype and raises `IndexError` on a
float-dtype index array even when it is empty. -/
inductive NpIndexArray where
  | emptyFloat
  | ints (indices : List Nat)
deriving DecidableEq, Repr

/-- `utils.max_n(arr, n, descending)`: the `n` largest values of `arr` and
their indices. For `n <= 0` the source returns two empty `np.array([])`s
(float64 dtype, see `NpIndexArray`). Otherwise it calls
`np.argpartition(a=arr, kth=-n)`, which requires `-len(arr) ≤ kth` and raises
`ValueError: kth(=-n) out of bounds` whenever `n > len(arr)`. Otherwise
`argpartition(arr, -n)[-n:]` yields the indices of the `n` largest values in
unspecified order, and `indices[np.argsort(arr[indices])]` sorts those
indices ascending by value: the composition equals keeping the last `n`
entries of the full ascending argsort (equal values straddling the selection
boundary are resolved toward later indices, consistently with `argLe`). With
`descending = true` the index array is then reversed, and the values are read
off `arr` at the final indices. -/
def max_n (arr : List ℚ) (n : ℤ) (descending : Bool) :
    Except PyExc (List ℚ × NpIndexArray) :=
  if n ≤ 0 then .ok ([], .emptyFloat)
  else if (arr.length : ℤ) < n then .error (.valueError "kth out of bounds")
  else
    let asc := (argsort arr).drop (arr.length - n.toNat)
    let indices := if descending then asc.reverse else asc
    .ok (indices.map (fun i => arr.getD i 0), .ints indices)

/-- One record of the station "info" array (`station_information.json`): the
fields the algorithms read. Further fields (name, capacity, ...) ride along
in the real payload and are irrelevant to every claim. -/
structure StationInfo where
  station_id : String
  lat : ℚ
  lon : ℚ
deriving DecidableEq, Repr, Inhabited

/-- One record of the station "status" array (`station_status.json`): its id
and the `num_bikes_available_types` pair `[{'mechanical': m}, {'ebike': e}]`
flattened to the two counts. The fields of `DROP_COLUMNS_STATION_INFO` are
dropped by `format_stations_info` and not modelled. -/
structure StationStatus where
  station_id : String
  mechanical : Nat
  ebike : Nat
deriving DecidableEq, Repr, Inhabited

/-- Core of `bikes.get_nearest_stations` after its `get_stations_info()` call
(modelled separately for the caching claim): build the array of distances
from `location` to each info record, call `max_n` on the negated distances
with `descending=True`, and reindex both arrays by the returned indices
(`np.asarray(s)[indices]`). A `ValueError` from `max_n` propagates; when
`max_n` took its `n <= 0` branch the returned empty index array has float64
dtype and the fancy indexing itself raises
`IndexError: arrays used as indices must be of integer (or boolean) type`.
Distances are carried squared (see `distanceSq`); the integer indices
produced by `max_n` always lie within the info array, so the `getD` defaults
are never read. -/
def nearest_stations_select (stations_info : List StationInfo)
    (stations_status : List StationStatus) (location : ℚ × ℚ) (n : ℤ) :
    Except PyExc (List StationInfo × List StationStatus) :=
  let distances := stations_info.map (fun s => distanceSq location (s.lat, s.lon))
  match max_n (distances.map (fun d => -d)) n true with
  | .error e => .error e
  | .ok (_, .emptyFloat) =>
      .error (.indexError "arrays used as indices must be of integer (or boolean) type")
  | .ok (_, .ints indices) =>
      .ok (indices.map (fun i => stations_info.getD i default),
           indices.map (fun i => stations_status.getD i default))

example :
    max_n [(3 : ℚ), 1, 4, 1, 5] 2 true = .ok ([5, 4], .ints [4, 2]) := rfl

example :
    max_n [(1 : ℚ), 1] 2 true = .ok ([1, 1], .ints [1, 0]) := rfl

example : max_n [(1 : ℚ), 1] 0 true = .ok ([], .emptyFloat) := rfl

example : max_n [(1 : ℚ), 1] 3 true = .error (.valueError "kth out of bounds") := rfl

theorem argsort_perm (arr : List ℚ) : (argsort arr).Perm (List.range arr.length) :=
  List.perm_insertionSort _ _

theorem argsort_sorted (arr : List ℚ) : List.Pairwise (argLe arr) (argsort arr) :=
  List.sorted_insertionSort _ _

theorem mem_argsort_lt (arr : List ℚ) {i : Nat} (h : i ∈ argsort arr) : i < arr.length :=
  List.mem_range.1 (((argsort_perm arr).mem_iff).1 h)

theorem length_argsort (arr : List ℚ) : (argsort arr).length = arr.length := by
  simpa using (argsort_perm arr).length_eq

theorem max_n_pos (arr : List ℚ) (n : ℤ) (h0 : 0 < n) (hn : n ≤ (arr.length : ℤ)) :
    max_n arr n true = .ok
      ((((argsort arr).drop (arr.length - n.toNat)).reverse).map (fun i => arr.getD i 0),
       .ints (((argsort arr).drop (arr.length - n.toNat)).reverse)) := by
  unfold max_n
  rw [if_neg (by omega), if_neg (by omega)]
  rfl

theorem max_n_indices_spec (arr : List ℚ) (n : ℤ) (h0 : 0 < n)
    (hn : n ≤ (arr.length : ℤ)) :
    ∃ indices : List Nat,
      max_n arr n true
        = .ok (indices.map (fun i => arr.getD i 0), NpIndexArray.ints indices) ∧
      indices.length = n.toNat ∧
      (∀ i ∈ indices, i < arr.length) ∧
      List.Pairwise (fun a b => argLe arr b a) indices ∧
      (n = (arr.length : ℤ) → indices.Perm (List.range arr.length)) := by
  refine ⟨((argsort arr).drop (arr.length - n.toNat)).reverse,
    max_n_pos arr n h0 hn, ?_, ?_, ?_, ?_⟩
  · rw [List.length_reverse, List.length_drop, length_argsort]
    omega
  · intro i hi
    exact mem_argsort_lt arr ((List.drop_sublist _ _).mem (List.mem_reverse.1 hi))
  · exact List.pairwise_reverse.2
      (List.Pairwise.sublist (List.drop_sublist _ _) (argsort_sorted arr))
  · intro hlen
    have : arr.length - n.toNat = 0 := by omega
    rw [this, List.drop_zero]
    exact (List.reverse_perm _).trans (argsort_perm arr)

theorem map_getD_range {α : Type} [Inhabited α] (l : List α) :
    (List.range l.length).map (fun i => l.getD i default) = l := by
  apply List.ext_get (by simp)
  intro i h1 h2
  rw [List.get_eq_getElem, List.get_eq_getElem, List.getElem_map, List.getElem_range,
    List.getD_eq_getElem _ _ h2]


theorem negdist_getD (info : List StationInfo) (loc : ℚ × ℚ) (i : Nat)
    (h : i < info.length) :
    ((info.map (fun s => distanceSq loc (s.lat, s.lon))).map (fun d => -d)).getD i 0
      = -(distanceSq loc ((info.getD i default).lat, (info.getD i default).lon)) := by
  rw [List.getD_eq_getElem _ _ (by simpa using h), List.getElem_map, List.getElem_map,
    List.getD_eq_getElem _ _ h]

/-- The external velib endpoints together with a count of HTTP fetches
performed: the state threaded through `bikes.get_stations_info`. -/
structure BikesWorld where
  infoStations : List StationInfo
  statusStations : List StationStatus
  fetchCount : Nat
deriving Repr

/-- One `requests.get(INFO_URL).json()["data"]["stations"]` call: returns the
info array and counts one network fetch. -/
def fetchInfo (w : BikesWorld) : List StationInfo × BikesWorld :=
  (w.infoStations, { w with fetchCount := w.fetchCount + 1 })

/-- One `requests.get(STATUS_URL).json()["data"]["stations"]` call: returns
the status array and counts one network fetch. -/
def fetchStatus (w : BikesWorld) : List StationStatus × BikesWorld :=
  (w.statusStations, { w with fetchCount := w.fetchCount + 1 })

/-- `bikes.get_stations_info`: one GET per URL, info then status, on every
call. Despite the comment at its call site in `get_nearest_stations` ("the
following function call ... implements lru_cache(max_size=1) so it will be
costly only once"), the function body carries no `lru_cache` decorator and no
other cache: nothing stores the result between calls. -/
def get_stations_info (w : BikesWorld) :
    (List StationInfo × List StationStatus) × BikesWorld :=
  let (stations, w1) := fetchInfo w
  let (status, w2) := fetchStatus w1
  ((stations, status), w2)

/-- C6 evaluated on the code: `get_stations_info` performs two fresh HTTP
fetches on every call — there is no fetch-once-then-cache behaviour (and no
`lru_cache`, contrary to the source comment at the call site) — so two calls
without an intervening refresh cost four fetches, two of them after the
first call already returned. -/
theorem get_stations_info_refetches (w : BikesWorld) :
    (get_stations_info w).2.fetchCount = w.fetchCount + 2 ∧
    (get_stations_info (get_stations_info w).2).2.fetchCount = w.fetchCount + 4 ∧
    (get_stations_info (get_stations_info w).2).1 = (get_stations_info w).1 := by
  refine ⟨rfl, rfl, rfl⟩

/-- One row of the DataFrame built by `bikes.format_stations_info`: the info
record's fields, `station.update(status)` overwriting `station_id` with the
status record's (equal by the preceding assert), and the `mechanical` /
`electrical` counts unpacked from `num_bikes_available_types`. The columns of
`DROP_COLUMNS_STATION_INFO` are dropped and not modelled. -/
structure StationRow where
  station_id : String
  lat : ℚ
  lon : ℚ
  mechanical : Nat
  electrical : Nat
deriving DecidableEq, Repr

/-- Row construction inside the loop of `bikes.format_stations_info`. -/
def mkStationRow (station : StationInfo) (status : StationStatus) : StationRow :=
  ⟨status.station_id, station.lat, station.lon, status.mechanical, status.ebike⟩

/-- The `for station, status in zip(...)` loop of
`bikes.format_stations_info`: each iteration first runs the bare
`assert station['station_id'] == status['station_id']` (raising a builtin
`AssertionError` with empty message on the first mismatch, which aborts the
whole call with no partial result), then builds the row. -/
def formatRows : List (StationInfo × StationStatus) → Except PyExc (List StationRow)
  | [] => .ok []
  | p :: rest =>
      if p.1.station_id = p.2.station_id then
        match formatRows rest with
        | .ok rows => .ok (mkStationRow p.1 p.2 :: rows)
        | .error e => .error e
      else .error (.assertionError "")

/-- `bikes.format_stations_info`: zip the two arrays positionally (Python
`zip` stops at the shorter one) and run the loop; building the DataFrame and
dropping the drop-list columns afterwards cannot fail on the modelled
fields. -/
def format_stations_info (stations_info : List StationInfo)
    (stations_status : List StationStatus) : Except PyExc (List StationRow) :=
  formatRows (stations_info.zip stations_status)

/-- C5 (amended): if the info and status records at any zipped position carry
different station ids, `format_stations_info` fails — it raises the builtin
`AssertionError` of the bare `assert` (the code defines no `IntegrityError`),
producing no row at all rather than silently skipping the mismatch; when all
zipped positions agree it returns one row per zipped pair. (No cache exists
that could retain a previous snapshot: `get_stations_info` refetches on every
call, see `get_stations_info_refetches`.) -/
theorem station_join_mismatch_fatal (stations_info : List StationInfo)
    (stations_status : List StationStatus) :
    ((∃ p ∈ stations_info.zip stations_status, p.1.station_id ≠ p.2.station_id) →
      format_stations_info stations_info stations_status
        = Except.error (PyExc.assertionError "")) ∧
    ((∀ p ∈ stations_info.zip stations_status, p.1.station_id = p.2.station_id) →
      format_stations_info stations_info stations_status
        = Except.ok ((stations_info.zip stations_status).map
            (fun p => mkStationRow p.1 p.2))) := by
  unfold format_stations_info
  induction stations_info.zip stations_status with
  | nil =>
    exact ⟨fun h => absurd h (by simp), fun _ => rfl⟩
  | cons hd tl ih =>
    constructor
    · rintro ⟨p, hp, hne⟩
      rcases List.mem_cons.1 hp with h | h
      · subst h
        by_cases hid : p.1.station_id = p.2.station_id
        · exact absurd hid hne
        · simp only [formatRows, if_neg hid]
      · by_cases hid : hd.1.station_id = hd.2.station_id
        · have := ih.1 ⟨p, h, hne⟩
          simp only [formatRows, if_pos hid, this]
        · simp only [formatRows, if_neg hid]
    · intro hall
      have hid : hd.1.station_id = hd.2.station_id := hall hd (List.mem_cons_self hd tl)
      have := ih.2 (fun p hp => hall p (List.mem_cons_of_mem hd hp))
      simp only [formatRows, if_pos hid, this, List.map_cons]

/-- Witness for `station_join_mismatch_fatal`: a mismatch at position 1 aborts
the refresh with `AssertionError`; matching ids produce the joined rows. -/
theorem station_join_mismatch_fatal_witness :
    format_stations_info [⟨"1", 1, 2⟩, ⟨"2", 3, 4⟩] [⟨"1", 5, 6⟩, ⟨"9", 7, 8⟩]
      = Except.error (PyExc.assertionError "") ∧
    format_stations_info [⟨"1", 1, 2⟩] [⟨"1", 5, 6⟩]
      = Except.ok [⟨"1", 1, 2, 5, 6⟩] := by
  constructor
  · exact (station_join_mismatch_fatal [⟨"1", 1, 2⟩, ⟨"2", 3, 4⟩]
      [⟨"1", 5, 6⟩, ⟨"9", 7, 8⟩]).1
      ⟨(⟨"2", 3, 4⟩, ⟨"9", 7, 8⟩), by decide, by decide⟩
  · exact (station_join_mismatch_fatal [⟨"1", 1, 2⟩] [⟨"1", 5, 6⟩]).2 (by decide)

/-- C5 counterexample: a positional station-id mismatch makes the refresh
raise the builtin `AssertionError` (empty message, bare `assert`), which is
not an exception of the project's custom hierarchy — `src/utils/errors.py`
defines no `IntegrityError` class; and no cache exists whose snapshot could
be retained (see `get_stations_info_refetches`). -/
theorem station_join_mismatch_counterexample :
    format_stations_info [⟨"42", 0, 0⟩] [⟨"43", 3, 2⟩]
      = Except.error (PyExc.assertionError "") ∧
    isCustomException (PyExc.assertionError "") = false := by
  exact ⟨rfl, rfl⟩

/-- Round-half-to-even on ℚ (`np.around` rounds ties to the even integer). -/
def roundHalfEven (q : ℚ) : ℤ :=
  if Int.fract q < 1 / 2 then ⌊q⌋
  else if 1 / 2 < Int.fract q then ⌊q⌋ + 1
  else if ⌊q⌋ % 2 = 0 then ⌊q⌋ else ⌊q⌋ + 1

/-- `np.around(x, 2)`: round to 2 decimal places, NumPy's half-to-even. -/
def np_around2 (q : ℚ) : ℚ := (roundHalfEven (q * 100) : ℚ) / 100

/-- `weather.ADDRESS_SEARCH_CONFIDENCE_THRESHOLD`. -/
def ADDRESS_SEARCH_CONFIDENCE_THRESHOLD : ℚ := 9 / 10

/-- One entry of the geocoding response's `features` array: the fields read
by `weather._geocode_address` (`geometry.coordinates = [lon, lat]` and
`properties.{score, postcode, _type}` — `_type` is spelled `type_tag`
here). -/
structure GeoFeature where
  lon : ℚ
  lat : ℚ
  score : ℚ
  postcode : String
  type_tag : String
deriving DecidableEq, Repr, Inhabited

/-- The dictionary `weather._geocode_address` returns on success. -/
structure GeocodeResult where
  latitude : ℚ
  longitude : ℚ
  confidence : ℚ
  postcode : String
  type_tag : String
deriving DecidableEq, Repr

/-- `weather._geocode_address`, taking the upstream response: its HTTP status
and its `features` value (`none` when the JSON has no 'features' key).
`invalid_response` is true when the status is not 200, the key is missing, or
the feature list is empty (here: when `features.getD []` is empty, the same
truth table); then `GeocodeInvalidResponse` carries the upstream status.
Otherwise the head feature is read (`headD` is safe: the guard ensures
nonemptiness), its score rounded to 2 decimals, and the rounded confidence is
compared against the threshold: below it, `GeocodeConfidenceError` carries
the rounded confidence and the threshold; otherwise the result is built from
the first match. -/
def _geocode_address (status : Nat) (features : Option (List GeoFeature)) :
    Except PyExc GeocodeResult :=
  if status ≠ 200 ∨ (features.getD []).isEmpty then
    .error (.geocodeInvalidResponse status)
  else
    let feature := (features.getD []).headD default
    let confidence := np_around2 feature.score
    if confidence < ADDRESS_SEARCH_CONFIDENCE_THRESHOLD then
      .error (.geocodeConfidenceError confidence ADDRESS_SEARCH_CONFIDENCE_THRESHOLD)
    else
      .ok ⟨feature.lat, feature.lon, confidence, feature.postcode, feature.type_tag⟩

theorem geocode_address_valid (f : GeoFeature) (rest : List GeoFeature) :
    _geocode_address 200 (some (f :: rest))
      = if np_around2 f.score < 9 / 10 then
          Except.error (PyExc.geocodeConfidenceError (np_around2 f.score) (9 / 10))
        else
          Except.ok ⟨f.lat, f.lon, np_around2 f.score, f.postcode, f.type_tag⟩ := by
  unfold _geocode_address
  rw [if_neg (by simp)]
  rfl

/-- C7 (amended): the geocoder rounds the top match's score to 2 decimals
first and compares that rounded confidence with the threshold 0.9: when the
rounded confidence is below the threshold the call fails with
`GeocodeConfidenceError` carrying the (rounded) confidence score and the
threshold, and when it is at or above the threshold the call succeeds,
returning the first match's coordinates, the rounded confidence, the postcode
and the place-type tag. -/
theorem geocode_confidence_threshold (f : GeoFeature) (rest : List GeoFeature) :
    (np_around2 f.score < 9 / 10 →
      _geocode_address 200 (some (f :: rest))
        = Except.error (PyExc.geocodeConfidenceError (np_around2 f.score) (9 / 10))) ∧
    (9 / 10 ≤ np_around2 f.score →
      _geocode_address 200 (some (f :: rest))
        = Except.ok ⟨f.lat, f.lon, np_around2 f.score, f.postcode, f.type_tag⟩) := by
  rw [geocode_address_valid f rest]
  constructor
  · intro h
    rw [if_pos h]
  · intro h
    rw [if_neg (not_lt.2 h)]

/-- Witness for `geocode_confidence_threshold`: the spec's two examples. A
top match scored 0.85 fails with `GeocodeConfidenceError` carrying
`confidence_score = 0.85` and `threshold = 0.9`; a top match scored 0.95
succeeds with confidence 0.95. -/
theorem geocode_confidence_threshold_witness :
    _geocode_address 200 (some [⟨2, 48, 85 / 100, "75011", "housenumber"⟩])
      = Except.error (PyExc.geocodeConfidenceError (85 / 100) (9 / 10)) ∧
    _geocode_address 200 (some [⟨2, 48, 95 / 100, "75011", "housenumber"⟩])
      = Except.ok ⟨48, 2, 95 / 100, "75011", "housenumber"⟩ := by
  have h85 : np_around2 (85 / 100) = 85 / 100 := by
    norm_num [np_around2, roundHalfEven, Int.fract]
  have h95 : np_around2 (95 / 100) = 95 / 100 := by
    norm_num [np_around2, roundHalfEven, Int.fract]
  constructor
  · have := (geocode_confidence_threshold
      ⟨2, 48, 85 / 100, "75011", "housenumber"⟩ []).1
    rw [h85] at this
    exact this (by norm_num)
  · have := (geocode_confidence_threshold
      ⟨2, 48, 95 / 100, "75011", "housenumber"⟩ []).2
    rw [h95] at this
    exact this (by norm_num)

/-- C7 counterexample: a top match whose raw upstream score 0.896 is strictly
below the threshold 0.9 does **not** fail — `np.around(0.896, 2) = 0.9` and
the comparison uses the rounded value, so the call succeeds with confidence
0.9 — refuting the claim that every score below the threshold fails. -/
theorem geocode_raw_score_below_threshold_succeeds :
    ((896 / 1000 : ℚ) < 9 / 10) ∧
    _geocode_address 200 (some [⟨2, 48, 896 / 1000, "75011", "housenumber"⟩])
      = Except.ok ⟨48, 2, 9 / 10, "75011", "housenumber"⟩ := by
  have hround : np_around2 (896 / 1000) = 9 / 10 := by
    norm_num [np_around2, roundHalfEven, Int.fract]
  constructor
  · norm_num
  · rw [geocode_address_valid ⟨2, 48, 896 / 1000, "75011", "housenumber"⟩ []]
    simp only [hround]
    rw [if_neg (by norm_num)]

/-- C10: the geocoder compares the confidence only after rounding it to two
decimal places: every raw score whose 2-decimal rounding reaches 0.9 succeeds
even when the raw score itself is strictly below 0.9, and when
`GeocodeConfidenceError` is raised its `confidence_score` is the rounded
score, not the raw upstream one. -/
theorem geocode_compares_rounded_score (f : GeoFeature) (rest : List GeoFeature) :
    (f.score < 9 / 10 → 9 / 10 ≤ np_around2 f.score →
      _geocode_address 200 (some (f :: rest))
        = Except.ok ⟨f.lat, f.lon, np_around2 f.score, f.postcode, f.type_tag⟩) ∧
    (np_around2 f.score < 9 / 10 →
      _geocode_address 200 (some (f :: rest))
        = Except.error (PyExc.geocodeConfidenceError (np_around2 f.score) (9 / 10))) := by
  rw [geocode_address_valid f rest]
  constructor
  · intro _ h
    rw [if_neg (not_lt.2 h)]
  · intro h
    rw [if_pos h]

/-- Witness for `geocode_compares_rounded_score` at raw score 0.896 (rounds
to 0.9, succeeds although the raw score is below the threshold) and at raw
score 0.885 (NumPy's half-to-even rounds to 0.88, and the error carries 0.88,
not 0.885). -/
theorem geocode_compares_rounded_score_witness :
    _geocode_address 200 (some [⟨2, 48, 896 / 1000, "75011", "housenumber"⟩])
      = Except.ok ⟨48, 2, 9 / 10, "75011", "housenumber"⟩ ∧
    _geocode_address 200 (some [⟨2, 48, 885 / 1000, "75011", "housenumber"⟩])
      = Except.error (PyExc.geocodeConfidenceError (88 / 100) (9 / 10)) := by
  have h896 : np_around2 (896 / 1000) = 9 / 10 := by
    norm_num [np_around2, roundHalfEven, Int.fract]
  have h885 : np_around2 (885 / 1000) = 88 / 100 := by
    norm_num [np_around2, roundHalfEven, Int.fract]
  constructor
  · have := (geocode_compares_rounded_score
      ⟨2, 48, 896 / 1000, "75011", "housenumber"⟩ []).1
    rw [h896] at this
    exact this (by norm_num) (by norm_num)
  · have := (geocode_compares_rounded_score
      ⟨2, 48, 885 / 1000, "75011", "housenumber"⟩ []).2
    rw [h885] at this
    exact this (by norm_num)
